import Mathlib

/-!
Verification of the Intent Safety Firewall (`intent_firewall.py`).

The firewall is a pure decision function: given a parsed command (a Python
dict with optional `device` / `location` / `action` entries), an optional
system-state mapping, the raw user utterance, and the current local time, it
returns a verdict tuple `(allowed, message, requires_confirmation)`.

Shallow embedding conventions:
* A Python dict value under a command key is either a string or `None`; a
  missing key defaults to `""` via `dict.get(key, "")`.  We model a field as
  `Option PyVal` (`Option.none` = key absent) with `PyVal` distinguishing the
  Python `None` from a string.  Calling `.lower()` on `None` raises
  `AttributeError`; the embedding surfaces that as `Option.none` in the result
  type of `intent_firewall` (`some v` = the function returned verdict `v`,
  `none` = an exception escaped).
* The only part of the clock the code reads is `now.hour` in the fixed local
  zone, so time is modelled as `hour : Nat`.
* `system_state.get(flag)` truthiness is modelled by Boolean fields of
  `SystemState`; a missing flag is falsy, and a `None` / empty dict
  `system_state` is modelled by `Option.none` (the code guards with
  `system_state and ...`, so an empty dict and `None` behave alike there).
* Regex extraction: every pattern used is of the form `\b(\d{m,n})%?\b` (or
  `\b(\d+)%?\b`), and `findall(...)[0]` is taken.  Such a pattern matches
  exactly the maximal digit runs whose neighbouring characters are non-word
  characters (the optional `%` never changes acceptance or the captured
  group, since a following word character can never be `%`), so the first
  match is the first such run, in text order, whose length lies in `[m, n]`.
  `digitRuns` computes those runs and `firstNumIn` / `firstNumAny` the first
  match converted with `int`.
-/

/-- A Python value stored under a command key: a string or `None`. -/
inductive PyVal where
  | pyNone : PyVal
  | str : String → PyVal
deriving DecidableEq, Repr

/-- The command dict.  `Option.none` models an absent key. -/
structure Command where
  device : Option PyVal
  location : Option PyVal
  action : Option PyVal
deriving DecidableEq, Repr

/-- Truthiness of the two system-state flags the firewall reads
(`dict.get` on a missing key yields `None`, which is falsy). -/
structure SystemState where
  kids_room_occupied : Bool
  child_lock_enabled : Bool
deriving DecidableEq, Repr

/-- The verdict tuple `(allowed, message, requires_confirmation)`. -/
structure Verdict where
  allowed : Bool
  message : String
  requiresConfirmation : Bool
deriving DecidableEq, Repr

/-- `str.lower()`: ASCII case folding applied character-wise (every string
the firewall compares against is ASCII, so Python's full Unicode folding
and this agree on all inputs the rules inspect). -/
def pyLower (s : String) : String :=
  ⟨s.data.map Char.toLower⟩

/-- `command.get(key, "").lower()`: a missing key defaults to `""`; a string
is lower-cased; a present `None` raises `AttributeError` (modelled `none`). -/
def getLower : Option PyVal → Option String
  | Option.none => some ""
  | some PyVal.pyNone => none
  | some (PyVal.str s) => some (pyLower s)

/-- Does `pat` match `l` starting at its head? (list version of
Python string equality on a leading slice). -/
def headMatch : List Char → List Char → Bool
  | [], _ => true
  | _ :: _, [] => false
  | a :: as, b :: bs => a == b && headMatch as bs

/-- Substring occurrence on char lists. -/
def subIn (needle : List Char) : List Char → Bool
  | [] => needle.isEmpty
  | c :: cs => headMatch needle (c :: cs) || subIn needle cs

/-- Python's `needle in haystack` on strings. -/
def pyIn (needle haystack : String) : Bool :=
  subIn needle.toList haystack.toList

/-- Python `\w` over the ASCII range: letters, digits, underscore. -/
def isWordChar (c : Char) : Bool :=
  c.isAlphanum || c == '_'

/-- One pass over the text collecting the maximal digit runs whose
neighbouring characters are non-word characters (exactly the candidate
matches of `\b(\d...)%?\b`).  State: `prevWord` is the wordness of the
previous character, `cur = some (cleanStart, ds)` is the digit run in
progress (`ds` reversed) with `cleanStart` recording that the character
before the run was a non-word character or the start of the string. -/
def runsGo : Bool → Option (Bool × List Char) → List Char → List (List Char)
  | _, cur, [] =>
    match cur with
    | some (true, ds) => [ds.reverse]
    | _ => []
  | prevWord, cur, c :: cs =>
    if c.isDigit then
      match cur with
      | some (clean, ds) => runsGo true (some (clean, c :: ds)) cs
      | none => runsGo true (some (!prevWord, [c])) cs
    else
      (match cur with
       | some (true, ds) => if isWordChar c then [] else [ds.reverse]
       | _ => []) ++ runsGo (isWordChar c) none cs

/-- All boundary-clean maximal digit runs of a string, in text order. -/
def digitRuns (s : String) : List (List Char) :=
  runsGo false none s.toList

/-- `int` of a digit string. -/
def digitsToNat (ds : List Char) : Nat :=
  ds.foldl (fun n c => n * 10 + (c.toNat - 48)) 0

/-- `re.findall(r"\b(\d{m,n})%?\b", s)[0]` as a number, when a match exists. -/
def firstNumIn (m n : Nat) (s : String) : Option Nat :=
  (((digitRuns s).filter (fun ds => m ≤ ds.length && ds.length ≤ n)).head?).map digitsToNat

/-- `re.findall(r"\b(\d+)%?\b", s)[0]` as a number, when a match exists. -/
def firstNumAny (s : String) : Option Nat :=
  ((digitRuns s).head?).map digitsToNat

/-- `format_blocked_response(reason, suggestion)`. -/
def format_blocked_response (reason suggestion : String) : String :=
  "🚫 Command Blocked by Intent Firewall\nReason: " ++ reason ++
    "\nSuggestion: " ++ suggestion

/-- `format_confirmation_response(reason)`. -/
def format_confirmation_response (reason : String) : String :=
  "⚠️ Confirmation Required\nReason: " ++ reason ++
    "\nAre you sure you want to continue? (yes/no)"

/-- Truthiness of `system_state and system_state.get("kids_room_occupied")`. -/
def kidsOccupied : Option SystemState → Bool
  | none => false
  | some st => st.kids_room_occupied

/-- Truthiness of `system_state and system_state.get("child_lock_enabled")`. -/
def childLockOn : Option SystemState → Bool
  | none => false
  | some st => st.child_lock_enabled

/-- LIGHTING SAFETY RULES section: `some v` iff the section `return`s `v`. -/
def lightingRule (device location action : String) (system_state : Option SystemState)
    (text_check : String) (hour : Nat) : Option Verdict :=
  if pyIn "light" device = true ∨ device ∈ ["lamp", "chandelier", "led strip", "bulb"] then
    if action = "turn_off" then
      if (pyIn "all" location = true ∨ pyIn "all lights" text_check = true) ∧
          (22 ≤ hour ∨ hour < 6) then
        some ⟨false, format_confirmation_response
          "Turning off all lights after 10PM may cause unsafe conditions.", true⟩
      else if pyIn "kids" location = true ∧ kidsOccupied system_state = true then
        some ⟨false, format_blocked_response
          "Cannot turn off lights in the kids' room while occupied."
          "Leave lights on or wait until room is empty.", false⟩
      else if pyIn "stair" location = true ∧ (22 ≤ hour ∨ hour < 6) then
        some ⟨false, format_confirmation_response
          "Stair lights should remain on at night for safety.", true⟩
      else none
    else if action = "set_brightness" then
      match firstNumAny text_check with
      | some b =>
        if 90 < b ∧ (22 ≤ hour ∨ hour < 6) then
          some ⟨false, format_confirmation_response
            "Brightness above 90% at night may disturb sleep.", true⟩
        else none
      | none => none
    else none
  else none

/-- DOOR & SECURITY section. -/
def doorRule (device action : String) (text_check : String) (hour : Nat) : Option Verdict :=
  if device ∈ ["door", "lock", "smart lock"] then
    if action ∈ ["unlock", "open"] then
      if pyIn "all doors" text_check = true then
        some ⟨false, format_blocked_response
          "Unlocking all doors is unsafe." "Unlock doors individually only.", false⟩
      else if 23 ≤ hour ∨ hour < 6 then
        some ⟨false, format_confirmation_response
          "Unlocking doors between 11PM–6AM may be unsafe.", true⟩
      else if pyIn "stranger" text_check = true then
        some ⟨false, format_blocked_response
          "Cannot unlock the door for unknown persons."
          "Allow only verified household members.", false⟩
      else none
    else none
  else none

/-- KITCHEN APPLIANCES section. -/
def kitchenRule (device action : String) (text_check : String) (hour : Nat) : Option Verdict :=
  if device ∈ ["oven", "stove", "microwave", "pressure cooker", "blender", "food processor"] ∧
      action ∈ ["turn_on", "start", "preheat"] then
    if 23 ≤ hour ∨ hour < 6 then
      some ⟨false, format_confirmation_response
        ("Using " ++ device ++ " at night may be unsafe."), true⟩
    else if device = "oven" then
      match firstNumIn 3 3 text_check with
      | some t =>
        if 250 < t then
          some ⟨false, format_confirmation_response
            "High oven temperature above 250°C detected.", true⟩
        else none
      | none => none
    else none
  else none

/-- CLIMATE CONTROL section. -/
def climateRule (device : String) (text_check : String) : Option Verdict :=
  if device ∈ ["thermostat", "air conditioning", "heater", "humidifier", "dehumidifier"] then
    match firstNumIn 1 2 text_check with
    | some t =>
      if device ∈ ["thermostat", "air conditioning", "heater"] ∧ (t < 10 ∨ 32 < t) then
        some ⟨false, format_blocked_response
          "Temperature must stay between 10–32°C." "Choose a safer range.", false⟩
      else if device = "humidifier" then
        match firstNumIn 2 3 text_check with
        | some h =>
          if 80 < h then
            some ⟨false, format_confirmation_response
              "Humidity above 80% may cause mold.", true⟩
          else none
        | none => none
      else none
    | none => none
  else none

/-- BATHROOM APPLIANCES section. -/
def waterHeaterRule (device action : String) (text_check : String) : Option Verdict :=
  if device = "water heater" ∧ action ∈ ["turn_on", "set_temperature"] then
    match firstNumIn 1 3 text_check with
    | some t =>
      if 60 < t then
        some ⟨false, format_blocked_response
          "Water temperature above 60°C may cause burns."
          "Keep water heater below 60°C.", false⟩
      else none
    | none => none
  else none

/-- SECURITY CAMERAS section. -/
def cameraRule (device action : String) (hour : Nat) : Option Verdict :=
  if device ∈ ["security camera", "camera"] ∧ action ∈ ["turn_off", "disable"] then
    if 22 ≤ hour ∨ hour < 8 then
      some ⟨false, format_blocked_response
        "Disabling cameras at night compromises security."
        "Keep cameras enabled overnight.", false⟩
    else none
  else none

/-- OUTDOOR section. -/
def outdoorRule (device action : String) (text_check : String) (hour : Nat) : Option Verdict :=
  if device ∈ ["pool pump", "pool heater", "hot tub", "sprinkler system", "outdoor grill"] ∧
      action = "turn_on" then
    if device ∈ ["pool pump", "hot tub"] ∧ (22 ≤ hour ∨ hour < 7) then
      some ⟨false, format_confirmation_response
        ("Operating " ++ device ++ " at night may disturb neighbors."), true⟩
    else if device = "hot tub" then
      match firstNumIn 2 2 text_check with
      | some t =>
        if 40 < t then
          some ⟨false, format_blocked_response
            "Hot tub temperature above 40°C is unsafe."
            "Keep water temp below 40°C.", false⟩
        else none
      | none => none
    else none
  else none

/-- ROBOTS / LAUNDRY section. -/
def robotsRule (device action : String) (hour : Nat) : Option Verdict :=
  if device ∈ ["robot vacuum", "robot lawn mower", "washing machine", "dryer"] ∧
      action ∈ ["start", "turn_on"] then
    if 22 ≤ hour ∨ hour < 7 then
      some ⟨false, format_confirmation_response
        ("Running " ++ device ++ " during quiet hours may disturb others."), true⟩
    else none
  else none

/-- MEDICINE CABINET section. -/
def medicineRule (device action : String) (system_state : Option SystemState) : Option Verdict :=
  if device = "medicine cabinet" ∧ action = "open" then
    if childLockOn system_state = true then
      some ⟨false, format_confirmation_response
        "Medicine cabinet is locked. Adult supervision required.", true⟩
    else none
  else none

/-- The fixed denylist of phrases (the `unsafe` list in the source). -/
def denyPhrases : List String :=
  ["disable all security", "turn off all alarms", "disable smoke detector",
   "unlock all doors", "stop all security cameras", "disable child lock"]

/-- UNSAFE PHRASES section: `any(p in text_check for p in unsafe)`. -/
def denyRule (text_check : String) : Option Verdict :=
  if denyPhrases.any (fun p => pyIn p text_check) = true then
    some ⟨false, format_blocked_response
      "Command violates core safety rules." "Manual override is not allowed.", false⟩
  else none

/-- First section that `return`s wins (Python early `return` semantics). -/
def firstSome : List (Option Verdict) → Option Verdict
  | [] => none
  | some v :: _ => some v
  | none :: rest => firstSome rest

/-- Synonym normalization: `check` / `show` become `status`. -/
def normAction (action : String) : String :=
  if action ∈ ["check", "show"] then "status" else action

/-- The firewall body after the three `.lower()` calls succeeded. -/
def firewallCore (device location action0 : String) (system_state : Option SystemState)
    (text_check : String) (hour : Nat) : Verdict :=
  if action0 ∈ ["status", "get_status", "list_devices"] then
    ⟨true, "", false⟩
  else
    match firstSome
      [lightingRule device location (normAction action0) system_state text_check hour,
       doorRule device (normAction action0) text_check hour,
       kitchenRule device (normAction action0) text_check hour,
       climateRule device text_check,
       waterHeaterRule device (normAction action0) text_check,
       cameraRule device (normAction action0) hour,
       outdoorRule device (normAction action0) text_check hour,
       robotsRule device (normAction action0) hour,
       medicineRule device (normAction action0) system_state,
       denyRule text_check] with
    | some v => v
    | none => ⟨true, "", false⟩

/-- `intent_firewall(command, system_state, raw_text)` at local hour `hour`.
`some v` means the call returned verdict `v`; `none` means an
`AttributeError` escaped (a command key present with value `None`). -/
def intent_firewall (command : Command) (system_state : Option SystemState)
    (raw_text : String) (hour : Nat) : Option Verdict :=
  match getLower command.device, getLower command.location, getLower command.action with
  | some device, some location, some action =>
    some (firewallCore device location action system_state (pyLower raw_text) hour)
  | _, _, _ => none

/-- Allow verdict `(True, "", False)`. -/
def allowVerdict : Verdict := ⟨true, "", false⟩

/-- Verdict shape Allow. -/
def IsAllow (v : Verdict) : Prop :=
  v.allowed = true ∧ v.requiresConfirmation = false ∧ v.message = ""

/-- Verdict shape Block. -/
def IsBlock (v : Verdict) : Prop :=
  v.allowed = false ∧ v.requiresConfirmation = false ∧ v.message ≠ ""

/-- Verdict shape Confirm. -/
def IsConfirm (v : Verdict) : Prop :=
  v.allowed = false ∧ v.requiresConfirmation = true ∧ v.message ≠ ""

/-- The Confirm verdict for turning off all-scope lights at night. -/
def nightLightsConfirm : Verdict :=
  ⟨false, format_confirmation_response
    "Turning off all lights after 10PM may cause unsafe conditions.", true⟩

/-- The Block verdict for the occupied kids' room rule. -/
def kidsRoomBlock : Verdict :=
  ⟨false, format_blocked_response
    "Cannot turn off lights in the kids' room while occupied."
    "Leave lights on or wait until room is empty.", false⟩

/-- The Block verdict for an out-of-range climate temperature. -/
def tempRangeBlock : Verdict :=
  ⟨false, format_blocked_response
    "Temperature must stay between 10–32°C." "Choose a safer range.", false⟩

/-- The Confirm verdict for humidity above 80%. -/
def humidityConfirm : Verdict :=
  ⟨false, format_confirmation_response "Humidity above 80% may cause mold.", true⟩

/-- The Block verdict for unlocking a door for a stranger. -/
def strangerBlock : Verdict :=
  ⟨false, format_blocked_response
    "Cannot unlock the door for unknown persons."
    "Allow only verified household members.", false⟩

/-- The Confirm verdict for unlocking doors in the 23:00-06:00 window. -/
def doorNightConfirm : Verdict :=
  ⟨false, format_confirmation_response "Unlocking doors between 11PM–6AM may be unsafe.", true⟩

/-- The Block verdict for a denylisted phrase in the raw text. -/
def denyBlock : Verdict :=
  ⟨false, format_blocked_response
    "Command violates core safety rules." "Manual override is not allowed.", false⟩
lemma format_blocked_response_ne_empty (r s : String) : format_blocked_response r s ≠ "" := by
  intro h
  have h2 := congrArg String.length h
  simp [format_blocked_response, String.length_append] at h2
  exact absurd h2.1.1.1 (by decide)

lemma format_confirmation_response_ne_empty (r : String) : format_confirmation_response r ≠ "" := by
  intro h
  have h2 := congrArg String.length h
  simp [format_confirmation_response, String.length_append] at h2
  exact absurd h2.1.1 (by decide)

lemma firstSome_mem : ∀ (l : List (Option Verdict)) (v : Verdict),
    firstSome l = some v → some v ∈ l := by
  intro l
  induction l with
  | nil => intro v h; simp [firstSome] at h
  | cons o rest ih =>
    intro v h
    cases o with
    | some w =>
      simp only [firstSome] at h
      exact h ▸ List.mem_cons_self _ _
    | none =>
      simp only [firstSome] at h
      exact List.mem_cons_of_mem _ (ih v h)

lemma lightingRule_shape {d l a : String} {ss : Option SystemState} {t : String} {hr : Nat}
    {v : Verdict} (e : lightingRule d l a ss t hr = some v) : IsBlock v ∨ IsConfirm v := by
  unfold lightingRule at e
  repeat' split at e
  all_goals first
    | (injection e with e; subst e;
       first
         | exact Or.inl ⟨rfl, rfl, format_blocked_response_ne_empty _ _⟩
         | exact Or.inr ⟨rfl, rfl, format_confirmation_response_ne_empty _⟩)
    | (cases e)

lemma doorRule_shape {d a t : String} {hr : Nat} {v : Verdict}
    (e : doorRule d a t hr = some v) : IsBlock v ∨ IsConfirm v := by
  unfold doorRule at e
  repeat' split at e
  all_goals first
    | (injection e with e; subst e;
       first
         | exact Or.inl ⟨rfl, rfl, format_blocked_response_ne_empty _ _⟩
         | exact Or.inr ⟨rfl, rfl, format_confirmation_response_ne_empty _⟩)
    | (cases e)

lemma kitchenRule_shape {d a t : String} {hr : Nat} {v : Verdict}
    (e : kitchenRule d a t hr = some v) : IsBlock v ∨ IsConfirm v := by
  unfold kitchenRule at e
  repeat' split at e
  all_goals first
    | (injection e with e; subst e;
       first
         | exact Or.inl ⟨rfl, rfl, format_blocked_response_ne_empty _ _⟩
         | exact Or.inr ⟨rfl, rfl, format_confirmation_response_ne_empty _⟩)
    | (cases e)

lemma climateRule_shape {d t : String} {v : Verdict}
    (e : climateRule d t = some v) : IsBlock v ∨ IsConfirm v := by
  unfold climateRule at e
  repeat' split at e
  all_goals first
    | (injection e with e; subst e;
       first
         | exact Or.inl ⟨rfl, rfl, format_blocked_response_ne_empty _ _⟩
         | exact Or.inr ⟨rfl, rfl, format_confirmation_response_ne_empty _⟩)
    | (cases e)

lemma waterHeaterRule_shape {d a t : String} {v : Verdict}
    (e : waterHeaterRule d a t = some v) : IsBlock v ∨ IsConfirm v := by
  unfold waterHeaterRule at e
  repeat' split at e
  all_goals first
    | (injection e with e; subst e;
       exact Or.inl ⟨rfl, rfl, format_blocked_response_ne_empty _ _⟩)
    | (cases e)

lemma cameraRule_shape {d a : String} {hr : Nat} {v : Verdict}
    (e : cameraRule d a hr = some v) : IsBlock v ∨ IsConfirm v := by
  unfold cameraRule at e
  repeat' split at e
  all_goals first
    | (injection e with e; subst e;
       exact Or.inl ⟨rfl, rfl, format_blocked_response_ne_empty _ _⟩)
    | (cases e)

lemma outdoorRule_shape {d a t : String} {hr : Nat} {v : Verdict}
    (e : outdoorRule d a t hr = some v) : IsBlock v ∨ IsConfirm v := by
  unfold outdoorRule at e
  repeat' split at e
  all_goals first
    | (injection e with e; subst e;
       first
         | exact Or.inl ⟨rfl, rfl, format_blocked_response_ne_empty _ _⟩
         | exact Or.inr ⟨rfl, rfl, format_confirmation_response_ne_empty _⟩)
    | (cases e)

lemma robotsRule_shape {d a : String} {hr : Nat} {v : Verdict}
    (e : robotsRule d a hr = some v) : IsBlock v ∨ IsConfirm v := by
  unfold robotsRule at e
  repeat' split at e
  all_goals first
    | (injection e with e; subst e;
       first
         | exact Or.inl ⟨rfl, rfl, format_blocked_response_ne_empty _ _⟩
         | exact Or.inr ⟨rfl, rfl, format_confirmation_response_ne_empty _⟩)
    | (cases e)

lemma medicineRule_shape {d a : String} {ss : Option SystemState} {v : Verdict}
    (e : medicineRule d a ss = some v) : IsBlock v ∨ IsConfirm v := by
  unfold medicineRule at e
  repeat' split at e
  all_goals first
    | (injection e with e; subst e;
       first
         | exact Or.inl ⟨rfl, rfl, format_blocked_response_ne_empty _ _⟩
         | exact Or.inr ⟨rfl, rfl, format_confirmation_response_ne_empty _⟩)
    | (cases e)

lemma denyRule_shape {t : String} {v : Verdict}
    (e : denyRule t = some v) : IsBlock v ∨ IsConfirm v := by
  unfold denyRule at e
  repeat' split at e
  all_goals first
    | (injection e with e; subst e;
       exact Or.inl ⟨rfl, rfl, format_blocked_response_ne_empty _ _⟩)
    | (cases e)

/-- C1: every verdict the firewall returns has exactly one of the three shapes
Allow (`allowed`, no confirmation, empty message), Block (not allowed, no
confirmation, non-empty message) or Confirm (not allowed, confirmation
required, non-empty message). -/
theorem firewall_verdict_one_of_three_shapes
    (command : Command) (system_state : Option SystemState) (raw_text : String) (hour : Nat)
    (v : Verdict) (h : intent_firewall command system_state raw_text hour = some v) :
    IsAllow v ∨ IsBlock v ∨ IsConfirm v := by
  unfold intent_firewall at h
  split at h
  case _ device location action hd hl ha =>
    injection h with h
    subst h
    unfold firewallCore
    split
    · exact Or.inl ⟨rfl, rfl, rfl⟩
    · split
      case _ w hw =>
        have hm := firstSome_mem _ _ hw
        simp only [List.mem_cons, List.not_mem_nil, or_false] at hm
        rcases hm with h1 | h1 | h1 | h1 | h1 | h1 | h1 | h1 | h1 | h1
        · exact Or.inr (lightingRule_shape h1.symm)
        · exact Or.inr (doorRule_shape h1.symm)
        · exact Or.inr (kitchenRule_shape h1.symm)
        · exact Or.inr (climateRule_shape h1.symm)
        · exact Or.inr (waterHeaterRule_shape h1.symm)
        · exact Or.inr (cameraRule_shape h1.symm)
        · exact Or.inr (outdoorRule_shape h1.symm)
        · exact Or.inr (robotsRule_shape h1.symm)
        · exact Or.inr (medicineRule_shape h1.symm)
        · exact Or.inr (denyRule_shape h1.symm)
      case _ => exact Or.inl ⟨rfl, rfl, rfl⟩
  case _ => cases h

/-- Witness for C1 at a concrete input. -/
theorem firewall_verdict_one_of_three_shapes_witness :
    IsAllow allowVerdict ∨ IsBlock allowVerdict ∨ IsConfirm allowVerdict :=
  firewall_verdict_one_of_three_shapes
    ⟨some (PyVal.str "light"), some (PyVal.str "all"), some (PyVal.str "status")⟩
    none "" 12 allowVerdict (by rfl)

lemma lightingRule_none {d l a : String} {ss : Option SystemState} {t : String} {hr : Nat}
    (h : ¬ (pyIn "light" d = true ∨ d ∈ ["lamp", "chandelier", "led strip", "bulb"])) :
    lightingRule d l a ss t hr = none := by
  unfold lightingRule; rw [if_neg h]

lemma doorRule_none {d a t : String} {hr : Nat}
    (h : ¬ d ∈ ["door", "lock", "smart lock"]) :
    doorRule d a t hr = none := by
  unfold doorRule; rw [if_neg h]

lemma kitchenRule_none {d a t : String} {hr : Nat}
    (h : ¬ (d ∈ ["oven", "stove", "microwave", "pressure cooker", "blender", "food processor"] ∧
      a ∈ ["turn_on", "start", "preheat"])) :
    kitchenRule d a t hr = none := by
  unfold kitchenRule; rw [if_neg h]

lemma climateRule_none {d t : String}
    (h : ¬ d ∈ ["thermostat", "air conditioning", "heater", "humidifier", "dehumidifier"]) :
    climateRule d t = none := by
  unfold climateRule; rw [if_neg h]

lemma waterHeaterRule_none {d a t : String}
    (h : ¬ (d = "water heater" ∧ a ∈ ["turn_on", "set_temperature"])) :
    waterHeaterRule d a t = none := by
  unfold waterHeaterRule; rw [if_neg h]

lemma cameraRule_none {d a : String} {hr : Nat}
    (h : ¬ (d ∈ ["security camera", "camera"] ∧ a ∈ ["turn_off", "disable"])) :
    cameraRule d a hr = none := by
  unfold cameraRule; rw [if_neg h]

lemma outdoorRule_none {d a t : String} {hr : Nat}
    (h : ¬ (d ∈ ["pool pump", "pool heater", "hot tub", "sprinkler system", "outdoor grill"] ∧
      a = "turn_on")) :
    outdoorRule d a t hr = none := by
  unfold outdoorRule; rw [if_neg h]

lemma robotsRule_none {d a : String} {hr : Nat}
    (h : ¬ (d ∈ ["robot vacuum", "robot lawn mower", "washing machine", "dryer"] ∧
      a ∈ ["start", "turn_on"])) :
    robotsRule d a hr = none := by
  unfold robotsRule; rw [if_neg h]

lemma medicineRule_none {d a : String} {ss : Option SystemState}
    (h : ¬ (d = "medicine cabinet" ∧ a = "open")) :
    medicineRule d a ss = none := by
  unfold medicineRule; rw [if_neg h]

lemma denyRule_none {t : String}
    (h : denyPhrases.any (fun p => pyIn p t) = false) :
    denyRule t = none := by
  unfold denyRule; rw [h]; rfl

lemma denyRule_fires {t : String}
    (h : pyIn "disable all security" t = true) :
    denyRule t = some denyBlock := by
  unfold denyRule
  have h2 : denyPhrases.any (fun p => pyIn p t) = true := by
    simp [denyPhrases, h]
  rw [h2]
  rfl

lemma intent_firewall_strings (d l a : String) (ss : Option SystemState)
    (raw : String) (hour : Nat) :
    intent_firewall ⟨some (PyVal.str d), some (PyVal.str l), some (PyVal.str a)⟩ ss raw hour
      = some (firewallCore (pyLower d) (pyLower l) (pyLower a) ss (pyLower raw) hour) := rfl

lemma lightingRule_allLights (ss : Option SystemState) (t : String) (hour : Nat) :
    lightingRule "light" "all" "turn_off" ss t hour
      = if 22 ≤ hour ∨ hour < 6 then some nightLightsConfirm else none := by
  unfold lightingRule
  rw [if_pos (Or.inl (by decide)), if_pos rfl]
  by_cases hn : 22 ≤ hour ∨ hour < 6
  · rw [if_pos ⟨Or.inl (by decide), hn⟩, if_pos hn]
    rfl
  · rw [if_neg (fun hc => hn hc.2),
      if_neg (fun hc => absurd hc.1 (by decide)),
      if_neg (fun hc => hn hc.2), if_neg hn]

lemma climateRule_tempBlock {d t : String} {tv : Nat}
    (hd : d ∈ ["thermostat", "air conditioning", "heater"])
    (ht : firstNumIn 1 2 t = some tv) (hrange : tv < 10 ∨ 32 < tv) :
    climateRule d t = some tempRangeBlock := by
  unfold climateRule
  have hd5 : d ∈ ["thermostat", "air conditioning", "heater", "humidifier", "dehumidifier"] := by
    simp only [List.mem_cons, List.not_mem_nil, or_false] at hd ⊢
    tauto
  rw [if_pos hd5]
  simp only [ht]
  rw [if_pos ⟨hd, hrange⟩]
  rfl

lemma climateRule_humidity {t : String} {hv : Nat}
    (h12 : (firstNumIn 1 2 t).isSome = true)
    (h23 : firstNumIn 2 3 t = some hv) (hv80 : 80 < hv) :
    climateRule "humidifier" t = some humidityConfirm := by
  unfold climateRule
  rw [if_pos (by decide)]
  obtain ⟨tv, htv⟩ := Option.isSome_iff_exists.mp h12
  simp only [htv]
  rw [if_neg (fun hc => absurd hc.1 (by decide))]
  simp only [if_true]
  simp only [h23]
  rw [if_pos hv80]
  rfl

lemma doorRule_stranger {d a t : String} {hour : Nat}
    (hd : d ∈ ["door", "lock", "smart lock"]) (ha : a ∈ ["unlock", "open"])
    (hs : pyIn "stranger" t = true) (had : pyIn "all doors" t = false)
    (hn : ¬ (23 ≤ hour ∨ hour < 6)) :
    doorRule d a t hour = some strangerBlock := by
  unfold doorRule
  rw [if_pos hd, if_pos ha, if_neg (by simp [had]), if_neg hn, if_pos hs]
  rfl

/-- C2 counterexample: a command whose `location` key is present with value
`None` makes `intent_firewall` raise `AttributeError` (modelled as `none`)
instead of returning a verdict, so the evaluator is not total over inputs
that include a `None` location. -/
theorem none_location_value_raises :
    intent_firewall
      ⟨some (PyVal.str "light"), some PyVal.pyNone, some (PyVal.str "turn_off")⟩
      none "" 12 = none := rfl

/-- C2 (amended): the evaluator is total — it returns a verdict and raises
no exception — for every command none of whose present field values is
`None` (missing keys, empty strings, `None` system state and empty raw text
included), every system state and every hour. -/
theorem firewall_total_when_fields_are_strings
    (command : Command) (ss : Option SystemState) (raw : String) (hour : Nat)
    (hd : command.device ≠ some PyVal.pyNone)
    (hl : command.location ≠ some PyVal.pyNone)
    (ha : command.action ≠ some PyVal.pyNone) :
    (intent_firewall command ss raw hour).isSome = true := by
  rcases command with ⟨d, l, a⟩
  rcases d with _ | (_ | ds) <;> rcases l with _ | (_ | ls) <;> rcases a with _ | (_ | as2) <;>
    first
      | rfl
      | exact absurd rfl hd
      | exact absurd rfl hl
      | exact absurd rfl ha

/-- Witness for C2 (amended) at a concrete input with a missing location key. -/
theorem firewall_total_when_fields_are_strings_witness :
    (intent_firewall ⟨some (PyVal.str "heater"), none, some (PyVal.str "turn_on")⟩
      none "warm it up" 10).isSome = true :=
  firewall_total_when_fields_are_strings
    ⟨some (PyVal.str "heater"), none, some (PyVal.str "turn_on")⟩
    none "warm it up" 10 (by decide) (by decide) (by decide)

/-- C3: for a command with empty device, location and action (matching no
category rule), a raw text containing the phrase "disable all security"
is blocked at every hour and for every system state. -/
theorem deny_phrase_blocks_no_category_command
    (system_state : Option SystemState) (raw_text : String) (hour : Nat)
    (hp : pyIn "disable all security" (pyLower raw_text) = true) :
    intent_firewall ⟨some (PyVal.str ""), some (PyVal.str ""), some (PyVal.str "")⟩
      system_state raw_text hour = some denyBlock := by
  have e : intent_firewall ⟨some (PyVal.str ""), some (PyVal.str ""), some (PyVal.str "")⟩
      system_state raw_text hour
      = some (firewallCore "" "" "" system_state (pyLower raw_text) hour) := rfl
  rw [e]
  unfold firewallCore
  rw [if_neg (by decide)]
  rw [lightingRule_none (by decide), doorRule_none (by decide), kitchenRule_none (by decide),
    climateRule_none (by decide), waterHeaterRule_none (by decide), cameraRule_none (by decide),
    outdoorRule_none (by decide), robotsRule_none (by decide), medicineRule_none (by decide),
    denyRule_fires hp]
  rfl

/-- Witness for C3 on the spec's example utterance. -/
theorem deny_phrase_blocks_no_category_command_witness :
    intent_firewall ⟨some (PyVal.str ""), some (PyVal.str ""), some (PyVal.str "")⟩
      none "please disable all security now" 15 = some denyBlock :=
  deny_phrase_blocks_no_category_command none "please disable all security now" 15 (by decide)

/-- C4: for every device, location, raw text, system state and hour, an
action among status / get_status / list_devices is always allowed. -/
theorem status_action_always_allow
    (device location action : String) (system_state : Option SystemState)
    (raw_text : String) (hour : Nat)
    (ha : action ∈ ["status", "get_status", "list_devices"]) :
    intent_firewall ⟨some (PyVal.str device), some (PyVal.str location), some (PyVal.str action)⟩
      system_state raw_text hour = some allowVerdict := by
  have e : intent_firewall ⟨some (PyVal.str device), some (PyVal.str location), some (PyVal.str action)⟩
      system_state raw_text hour
      = some (firewallCore (pyLower device) (pyLower location) (pyLower action)
          system_state (pyLower raw_text) hour) := rfl
  rw [e]
  have ha2 : pyLower action ∈ ["status", "get_status", "list_devices"] := by
    simp only [List.mem_cons, List.not_mem_nil, or_false] at ha
    rcases ha with rfl | rfl | rfl <;> simp [pyLower]
  unfold firewallCore
  rw [if_pos ha2]
  rfl

/-- Witness for C4 at a concrete input. -/
theorem status_action_always_allow_witness :
    intent_firewall ⟨some (PyVal.str "oven"), some (PyVal.str "kitchen"), some (PyVal.str "list_devices")⟩
      none "" 23 = some allowVerdict :=
  status_action_always_allow "oven" "kitchen" "list_devices" none "" 23 (by decide)

/-- C10: the status bypass precedes the denylist — a status-like action is
allowed even when the raw text contains a denylist phrase. -/
theorem status_action_overrides_deny_phrase
    (device location action : String) (system_state : Option SystemState)
    (raw_text : String) (hour : Nat)
    (ha : action ∈ ["status", "get_status", "list_devices"])
    (_hp : ∃ p ∈ denyPhrases, pyIn p (pyLower raw_text) = true) :
    intent_firewall ⟨some (PyVal.str device), some (PyVal.str location), some (PyVal.str action)⟩
      system_state raw_text hour = some allowVerdict := by
  have e : intent_firewall ⟨some (PyVal.str device), some (PyVal.str location), some (PyVal.str action)⟩
      system_state raw_text hour
      = some (firewallCore (pyLower device) (pyLower location) (pyLower action)
          system_state (pyLower raw_text) hour) := rfl
  rw [e]
  have ha2 : pyLower action ∈ ["status", "get_status", "list_devices"] := by
    simp only [List.mem_cons, List.not_mem_nil, or_false] at ha
    rcases ha with rfl | rfl | rfl <;> simp [pyLower]
  unfold firewallCore
  rw [if_pos ha2]
  rfl

/-- Witness for C10 with a denylist phrase in the raw text. -/
theorem status_action_overrides_deny_phrase_witness :
    intent_firewall ⟨some (PyVal.str "door"), some (PyVal.str "front"), some (PyVal.str "get_status")⟩
      none "unlock all doors" 23 = some allowVerdict :=
  status_action_overrides_deny_phrase "door" "front" "get_status" none "unlock all doors" 23
    (by decide) (by decide)

/-- C5: for `device="light", location="all", action="turn_off"` with a raw
text containing no denylist phrase, the verdict is the night-lights Confirm
exactly when the hour is in the 22:00-06:00 window, and Allow otherwise. -/
theorem all_lights_off_confirm_iff_night
    (hour : Nat) (ss : Option SystemState) (raw_text : String)
    (hsafe : denyPhrases.any (fun p => pyIn p (pyLower raw_text)) = false) :
    (intent_firewall ⟨some (PyVal.str "light"), some (PyVal.str "all"), some (PyVal.str "turn_off")⟩
        ss raw_text hour = some nightLightsConfirm ↔ (22 ≤ hour ∨ hour < 6))
    ∧ (¬ (22 ≤ hour ∨ hour < 6) →
      intent_firewall ⟨some (PyVal.str "light"), some (PyVal.str "all"), some (PyVal.str "turn_off")⟩
        ss raw_text hour = some allowVerdict) := by
  have key : intent_firewall
      ⟨some (PyVal.str "light"), some (PyVal.str "all"), some (PyVal.str "turn_off")⟩
      ss raw_text hour
      = if 22 ≤ hour ∨ hour < 6 then some nightLightsConfirm else some allowVerdict := by
    have e : intent_firewall
        ⟨some (PyVal.str "light"), some (PyVal.str "all"), some (PyVal.str "turn_off")⟩
        ss raw_text hour
        = some (firewallCore "light" "all" "turn_off" ss (pyLower raw_text) hour) := rfl
    rw [e]
    unfold firewallCore
    rw [if_neg (by decide), show normAction "turn_off" = "turn_off" from rfl]
    rw [lightingRule_allLights, doorRule_none (by decide), kitchenRule_none (by decide),
      climateRule_none (by decide), waterHeaterRule_none (by decide), cameraRule_none (by decide),
      outdoorRule_none (by decide), robotsRule_none (by decide), medicineRule_none (by decide),
      denyRule_none hsafe]
    by_cases hn : 22 ≤ hour ∨ hour < 6
    · rw [if_pos hn, if_pos hn]
      rfl
    · rw [if_neg hn, if_neg hn]
      rfl
  constructor
  · constructor
    · intro h
      by_cases hn : 22 ≤ hour ∨ hour < 6
      · exact hn
      · exfalso
        rw [key, if_neg hn] at h
        injection h with h
        exact format_confirmation_response_ne_empty _ (congrArg Verdict.message h).symm
    · intro hn
      rw [key, if_pos hn]
  · intro hn
    rw [key, if_neg hn]

/-- Witness for C5 at 23:00 (inside the window). -/
theorem all_lights_off_confirm_iff_night_witness :
    (intent_firewall ⟨some (PyVal.str "light"), some (PyVal.str "all"), some (PyVal.str "turn_off")⟩
        none "" 23 = some nightLightsConfirm ↔ (22 ≤ 23 ∨ 23 < 6))
    ∧ (¬ (22 ≤ 23 ∨ 23 < 6) →
      intent_firewall ⟨some (PyVal.str "light"), some (PyVal.str "all"), some (PyVal.str "turn_off")⟩
        none "" 23 = some allowVerdict) :=
  all_lights_off_confirm_iff_night 23 none "" (by decide)

/-- C6: turning off the kids' room lights while the room is occupied is
blocked at every hour. -/
theorem kids_room_occupied_block
    (hour : Nat) (st : SystemState) (hk : st.kids_room_occupied = true) :
    intent_firewall ⟨some (PyVal.str "light"), some (PyVal.str "kids room"), some (PyVal.str "turn_off")⟩
      (some st) "" hour = some kidsRoomBlock := by
  have e : intent_firewall
      ⟨some (PyVal.str "light"), some (PyVal.str "kids room"), some (PyVal.str "turn_off")⟩
      (some st) "" hour
      = some (firewallCore "light" "kids room" "turn_off" (some st) "" hour) := rfl
  rw [e]
  unfold firewallCore
  rw [if_neg (by decide), show normAction "turn_off" = "turn_off" from rfl]
  have hL : lightingRule "light" "kids room" "turn_off" (some st) "" hour = some kidsRoomBlock := by
    unfold lightingRule
    rw [if_pos (Or.inl (by decide)), if_pos rfl]
    rw [if_neg (fun hc => hc.1.elim (fun h => absurd h (by decide)) (fun h => absurd h (by decide)))]
    rw [if_pos ⟨by decide, hk⟩]
    rfl
  rw [hL]
  rfl

/-- Witness for C6 at 02:00 with the room occupied. -/
theorem kids_room_occupied_block_witness :
    intent_firewall ⟨some (PyVal.str "light"), some (PyVal.str "kids room"), some (PyVal.str "turn_off")⟩
      (some ⟨true, false⟩) "" 2 = some kidsRoomBlock :=
  kids_room_occupied_block 2 ⟨true, false⟩ rfl

/-- C7: for thermostat / air conditioning / heater with action
`set_temperature`, a first 1-2 digit number outside [10, 32] in the raw
text is blocked; "set to 5 degrees" blocks and "set to 24 degrees" allows. -/
theorem climate_temperature_hard_limit :
    (∀ (d raw : String) (ss : Option SystemState) (hour t : Nat),
      d ∈ ["thermostat", "air conditioning", "heater"] →
      firstNumIn 1 2 (pyLower raw) = some t → (t < 10 ∨ 32 < t) →
      intent_firewall ⟨some (PyVal.str d), some (PyVal.str ""), some (PyVal.str "set_temperature")⟩
        ss raw hour = some tempRangeBlock)
    ∧ intent_firewall
        ⟨some (PyVal.str "thermostat"), some (PyVal.str ""), some (PyVal.str "set_temperature")⟩
        none "set to 5 degrees" 12 = some tempRangeBlock
    ∧ intent_firewall
        ⟨some (PyVal.str "thermostat"), some (PyVal.str ""), some (PyVal.str "set_temperature")⟩
        none "set to 24 degrees" 12 = some allowVerdict := by
  refine ⟨?_, by decide, by decide⟩
  intro d raw ss hour t hd ht hrange
  rw [intent_firewall_strings]
  simp only [List.mem_cons, List.not_mem_nil, or_false] at hd
  rcases hd with rfl | rfl | rfl
  · rw [show pyLower "thermostat" = "thermostat" from by decide,
      show pyLower "" = "" from rfl,
      show pyLower "set_temperature" = "set_temperature" from by decide]
    unfold firewallCore
    rw [if_neg (by decide), show normAction "set_temperature" = "set_temperature" from rfl]
    rw [lightingRule_none (by decide), doorRule_none (by decide),
      kitchenRule_none (fun hc => absurd hc.1 (by decide)),
      climateRule_tempBlock (by decide) ht hrange]
    rfl
  · rw [show pyLower "air conditioning" = "air conditioning" from by decide,
      show pyLower "" = "" from rfl,
      show pyLower "set_temperature" = "set_temperature" from by decide]
    unfold firewallCore
    rw [if_neg (by decide), show normAction "set_temperature" = "set_temperature" from rfl]
    rw [lightingRule_none (by decide), doorRule_none (by decide),
      kitchenRule_none (fun hc => absurd hc.1 (by decide)),
      climateRule_tempBlock (by decide) ht hrange]
    rfl
  · rw [show pyLower "heater" = "heater" from by decide,
      show pyLower "" = "" from rfl,
      show pyLower "set_temperature" = "set_temperature" from by decide]
    unfold firewallCore
    rw [if_neg (by decide), show normAction "set_temperature" = "set_temperature" from rfl]
    rw [lightingRule_none (by decide), doorRule_none (by decide),
      kitchenRule_none (fun hc => absurd hc.1 (by decide)),
      climateRule_tempBlock (by decide) ht hrange]
    rfl

/-- Witness for C7 on a heater with an out-of-range value. -/
theorem climate_temperature_hard_limit_witness :
    intent_firewall ⟨some (PyVal.str "heater"), some (PyVal.str ""), some (PyVal.str "set_temperature")⟩
      none "set to 99 degrees" 12 = some tempRangeBlock :=
  climate_temperature_hard_limit.1 "heater" "set to 99 degrees" none 12 99
    (by decide) (by decide) (by decide)

/-- C8 counterexample: at 23:00, unlocking a door with "stranger" in the
raw text yields the night-window Confirm (requires_confirmation = true),
not a Block, so the stranger rule does not fire at every time of day. -/
theorem door_stranger_at_23_confirms_not_blocks :
    intent_firewall ⟨some (PyVal.str "door"), some (PyVal.str ""), some (PyVal.str "unlock")⟩
      none "there is a stranger at the door" 23 = some doorNightConfirm
    ∧ doorNightConfirm.requiresConfirmation = true ∧ doorNightConfirm.allowed = false := by
  refine ⟨by decide, rfl, rfl⟩

/-- C8 (amended): for a door/lock/smart-lock device with action unlock or
open, a raw text mentioning "stranger" (and not "all doors") is blocked at
every hour outside the 23:00-06:00 confirmation window, for every location
and system state. -/
theorem door_stranger_blocks_outside_door_night_window
    (d a loc raw : String) (ss : Option SystemState) (hour : Nat)
    (hd : d ∈ ["door", "lock", "smart lock"]) (ha : a ∈ ["unlock", "open"])
    (hs : pyIn "stranger" (pyLower raw) = true)
    (had : pyIn "all doors" (pyLower raw) = false)
    (hn : ¬ (23 ≤ hour ∨ hour < 6)) :
    intent_firewall ⟨some (PyVal.str d), some (PyVal.str loc), some (PyVal.str a)⟩
      ss raw hour = some strangerBlock := by
  rw [intent_firewall_strings]
  simp only [List.mem_cons, List.not_mem_nil, or_false] at hd ha
  rcases hd with rfl | rfl | rfl <;> rcases ha with rfl | rfl <;>
  · first
      | rw [show pyLower "door" = "door" from by decide]
      | rw [show pyLower "lock" = "lock" from by decide]
      | rw [show pyLower "smart lock" = "smart lock" from by decide]
    first
      | rw [show pyLower "unlock" = "unlock" from by decide]
      | rw [show pyLower "open" = "open" from by decide]
    unfold firewallCore
    rw [if_neg (by decide)]
    first
      | rw [show normAction "unlock" = "unlock" from rfl]
      | rw [show normAction "open" = "open" from rfl]
    rw [lightingRule_none (by decide), doorRule_stranger (by decide) (by decide) hs had hn]
    rfl

/-- Witness for C8 (amended) at 10:00. -/
theorem door_stranger_blocks_outside_door_night_window_witness :
    intent_firewall ⟨some (PyVal.str "lock"), some (PyVal.str "front door"), some (PyVal.str "open")⟩
      none "open the door for the stranger" 10 = some strangerBlock :=
  door_stranger_blocks_outside_door_night_window "lock" "open" "front door"
    "open the door for the stranger" none 10 (by decide) (by decide) (by decide)
    (by decide) (by decide)

/-- C9 counterexample: a humidifier command whose raw text carries the
3-digit humidity 100 (and no 1-2 digit number) is allowed, not confirmed:
the humidifier check is nested under the 1-2 digit temperature match. -/
theorem humidifier_three_digit_value_allows :
    intent_firewall
      ⟨some (PyVal.str "humidifier"), some (PyVal.str ""), some (PyVal.str "set_humidity")⟩
      none "set humidity to 100" 12 = some allowVerdict
    ∧ allowVerdict.requiresConfirmation = false ∧ allowVerdict.allowed = true := by
  refine ⟨by decide, rfl, rfl⟩

/-- C9 (amended): for a humidifier with a non-status action, whenever the
raw text also contains a standalone 1-2 digit number and its first
standalone 2-3 digit number exceeds 80, the verdict is the humidity
Confirm, at every hour and system state. -/
theorem humidifier_confirm_needs_short_number
    (a raw : String) (ss : Option SystemState) (hour : Nat) (hv : Nat)
    (hstatus : ¬ pyLower a ∈ ["status", "get_status", "list_devices"])
    (h12 : (firstNumIn 1 2 (pyLower raw)).isSome = true)
    (h23 : firstNumIn 2 3 (pyLower raw) = some hv) (hv80 : 80 < hv) :
    intent_firewall ⟨some (PyVal.str "humidifier"), some (PyVal.str ""), some (PyVal.str a)⟩
      ss raw hour = some humidityConfirm := by
  rw [intent_firewall_strings]
  rw [show pyLower "humidifier" = "humidifier" from by decide, show pyLower "" = "" from rfl]
  unfold firewallCore
  rw [if_neg hstatus]
  rw [lightingRule_none (by decide), doorRule_none (by decide),
    kitchenRule_none (fun hc => absurd hc.1 (by decide)),
    climateRule_humidity h12 h23 hv80]
  rfl

/-- Witness for C9 (amended) on "set humidity to 85". -/
theorem humidifier_confirm_needs_short_number_witness :
    intent_firewall
      ⟨some (PyVal.str "humidifier"), some (PyVal.str ""), some (PyVal.str "set_humidity")⟩
      none "set humidity to 85" 12 = some humidityConfirm :=
  humidifier_confirm_needs_short_number "set_humidity" "set humidity to 85" none 12 85
    (by decide) (by decide) (by decide) (by decide)
